import Mathlib

/-!
# vassert.h: assertion macros and the levelled log sink

A shallow embedding of `src/vassert.h`.

* C strings are lists of characters (the bytes before the terminating NUL).
* The preprocessor configuration (`NDEBUG`, `VABORT_DEBUG`, `_MSC_VER`,
  `__ANDROID__`) is a record of booleans; a macro whose definition depends on
  it takes the record as an argument.
* A macro argument has two spellings: as written, and after macro
  replacement; `#expr` yields the second once the argument has passed through
  another macro, as in `VASSERT(expr)`, defined as `VPANIC(expr)`.
* A running process is its memory together with the trace of what it did to
  the outside world: calls to the log sink and the halt of `VABORT`.
* `vlog_msgn` is modelled on an explicit 1024-byte buffer whose initial
  contents are arbitrary; a store that leaves the buffer yields `none`.
-/

namespace VAssert

/-! ## Data model -/

/-- A C string, given by the characters that precede its terminator. -/
abbrev CStr := List Char

/-- The string terminator. -/
def NUL : Char := Char.ofNat 0

/-- The line feed written by `fprintf(outfile, "%s\n", buffer)`. -/
def LF : Char := Char.ofNat 10

/-- The enum `VLOG_LEVEL` (vassert.h 103-110). -/
inductive VLOG_LEVEL where
  | VLOG_LEVEL_FATAL
  | VLOG_LEVEL_ERROR
  | VLOG_LEVEL_WARN
  | VLOG_LEVEL_INFO
  | VLOG_LEVEL_DEBUG
  | VLOG_LEVEL_TRACE
  deriving DecidableEq, Repr

open VLOG_LEVEL

/-- The integer value of each enumerator. -/
def VLOG_LEVEL.toNat : VLOG_LEVEL → Nat
  | VLOG_LEVEL_FATAL => 0
  | VLOG_LEVEL_ERROR => 1
  | VLOG_LEVEL_WARN => 2
  | VLOG_LEVEL_INFO => 3
  | VLOG_LEVEL_DEBUG => 4
  | VLOG_LEVEL_TRACE => 5

/-- One variadic argument of a printf-style call. -/
inductive Arg where
  | str (s : CStr)
  | int (i : Int)
  deriving DecidableEq, Repr

/-- The preprocessor configuration the header is compiled under. -/
structure Build where
  /-- `NDEBUG` is defined (release build). -/
  NDEBUG : Bool
  /-- `VABORT_DEBUG` is defined. -/
  VABORT_DEBUG : Bool
  /-- `_MSC_VER` is non-zero. -/
  MSC_VER : Bool
  /-- `__ANDROID__` is defined. -/
  ANDROID : Bool
  deriving DecidableEq, Repr

/-- The three ways `VABORT()` halts the process (vassert.h 7-18). -/
inductive Halt where
  | abort
  | builtin_trap
  | debugBreak
  deriving DecidableEq, Repr

/-- A call `log_msgn(level, format, ...)` as handed to the log sink. -/
structure LogCall where
  level : VLOG_LEVEL
  format : CStr
  args : List Arg
  deriving DecidableEq, Repr

/-- What a process does to the outside world. -/
inductive Event where
  | log (c : LogCall)
  | halt (h : Halt)
  deriving DecidableEq, Repr

/-- Whether an event is the halt of the process. -/
def Event.isHalt : Event → Bool
  | Event.halt _ => true
  | Event.log _ => false

/-- A process: its memory and the trace of its events so far. -/
structure Proc (σ : Type) where
  mem : σ
  trace : List Event

/-- The process has executed `VABORT()`. -/
def Proc.halted {σ : Type} (p : Proc σ) : Bool := p.trace.any Event.isHalt

/-- The log calls of a trace, in order. -/
def logCalls : List Event → List LogCall
  | [] => []
  | Event.log c :: es => c :: logCalls es
  | Event.halt _ :: es => logCalls es

/-- A condition expression at a call site. `text` is the spelling of the
argument as written, which `#expr` yields in the macro the argument is written
in. `expanded` is its spelling after macro replacement (`NULL` replaced by
`((void *)0)`, `false` by `0`, ...), which `#expr` yields once the argument has
been handed on to another macro, since an argument is fully macro-replaced
before it is substituted where it is not an operand of `#`. `eval` is the
evaluation, which yields a truth value and may change the memory. -/
structure CExpr (σ : Type) where
  text : CStr
  expanded : CStr
  eval : σ → Bool × σ

/-- The argument as the inner macro receives it when an outer macro hands it
on: its tokens are already macro-replaced, so that is its spelling there. -/
def CExpr.forwarded {σ : Type} (expr : CExpr σ) : CExpr σ :=
  { text := expr.expanded, expanded := expr.expanded, eval := expr.eval }

/-- The call site: `__FILE__`, `__LINE__`, `__func__`. A line number is
within the range of the `int32_t` parameter it is passed to, so no wrap-around
is modelled. -/
structure Site where
  file : CStr
  line : Int
  func : CStr
  deriving DecidableEq, Repr

/-- Sequencing of two statements: the second runs only if the first did not
halt the process. -/
def andThen {σ : Type} (s k : Proc σ → Proc σ) (p : Proc σ) : Proc σ :=
  let q := s p
  if q.halted then q else k q

/-! ## The assertion macros and the failure reporters -/

/-- The macro `VABORT()` (vassert.h 7-18): which halt the build selects. -/
def VABORT_kind (b : Build) : Halt :=
  if b.VABORT_DEBUG then
    if b.MSC_VER then Halt.debugBreak else Halt.builtin_trap
  else Halt.abort

/-- The statement `VABORT();`: the process halts. -/
def VABORT {σ : Type} (b : Build) (p : Proc σ) : Proc σ :=
  { p with trace := p.trace ++ [Event.halt (VABORT_kind b)] }

/-- The macro `VUNLIKELY(x)` (vassert.h 24-30): `__builtin_expect(!!(x), 0)` or
`(x)`; both have the truth value of `x`. -/
def VUNLIKELY (x : Bool) : Bool := x

/-- Modelled from the spec: `log_msgn`, which `vlog_failure` and `vlog_warn`
call, is not defined in `src/`. The spec (section 2) says the assertion engine
hands the failure description to the log sink at FATAL or WARN severity, so a
call is the request it passes to the sink: level, format string, arguments. -/
def log_msgn (level : VLOG_LEVEL) (format : CStr) (args : List Arg) : LogCall :=
  { level := level, format := format, args := args }

/-- The format string used when no message is supplied. -/
def FMT_NOMSG : CStr := "%s:%d: %s: Assertion '%s' failed".toList

/-- The format string used when a message is supplied. -/
def FMT_MSG : CStr := "%s:%d: %s: Assertion '%s' failed: '%s'".toList

/-- The function `vlog_failure` (vassert.h 116-123). A `NULL` message is `none`. -/
def vlog_failure (expression : CStr) (message : Option CStr) (file : CStr)
    (line : Int) (func : CStr) : LogCall :=
  match message with
  | none =>
    log_msgn VLOG_LEVEL_FATAL FMT_NOMSG
      [Arg.str file, Arg.int line, Arg.str func, Arg.str expression]
  | some m =>
    log_msgn VLOG_LEVEL_FATAL FMT_MSG
      [Arg.str file, Arg.int line, Arg.str func, Arg.str expression, Arg.str m]

/-- The function `vlog_warn` (vassert.h 124-131). -/
def vlog_warn (expression : CStr) (message : Option CStr) (file : CStr)
    (line : Int) (func : CStr) : LogCall :=
  match message with
  | none =>
    log_msgn VLOG_LEVEL_WARN FMT_NOMSG
      [Arg.str file, Arg.int line, Arg.str func, Arg.str expression]
  | some m =>
    log_msgn VLOG_LEVEL_WARN FMT_MSG
      [Arg.str file, Arg.int line, Arg.str func, Arg.str expression, Arg.str m]

/-- The macro `VPANIC(expr)` (vassert.h 32-38). -/
def VPANIC {σ : Type} (b : Build) (loc : Site) (expr : CExpr σ) (p : Proc σ) : Proc σ :=
  let r := expr.eval p.mem
  if VUNLIKELY (!r.1) then
    VABORT b
      { mem := r.2
        trace := p.trace ++
          [Event.log (vlog_failure expr.text none loc.file loc.line loc.func)] }
  else { mem := r.2, trace := p.trace }

/-- The macro `VPANIC_MSG(expr, msg)` (vassert.h 40-46). -/
def VPANIC_MSG {σ : Type} (b : Build) (loc : Site) (expr : CExpr σ) (msg : Option CStr)
    (p : Proc σ) : Proc σ :=
  let r := expr.eval p.mem
  if VUNLIKELY (!r.1) then
    VABORT b
      { mem := r.2
        trace := p.trace ++
          [Event.log (vlog_failure expr.text msg loc.file loc.line loc.func)] }
  else { mem := r.2, trace := p.trace }

/-- The macro `VASSERT(expr)`: `VPANIC(expr)` unless `NDEBUG` is defined, then
`((void)0)` (vassert.h 49, 65). The argument is handed on to `VPANIC`, whose
`#expr` therefore stringifies the macro-replaced argument. -/
def VASSERT {σ : Type} (b : Build) (loc : Site) (expr : CExpr σ) (p : Proc σ) : Proc σ :=
  if b.NDEBUG then p else VPANIC b loc expr.forwarded p

/-- The macro `VASSERT_MSG(expr, msg)`: `VPANIC_MSG(expr, msg)` unless `NDEBUG`
is defined, then `((void)0)` (vassert.h 50, 66). The argument is handed on as
in `VASSERT`. -/
def VASSERT_MSG {σ : Type} (b : Build) (loc : Site) (expr : CExpr σ) (msg : Option CStr)
    (p : Proc σ) : Proc σ :=
  if b.NDEBUG then p else VPANIC_MSG b loc expr.forwarded msg p

/-- The macro `VASSERT_WARN(expr)` (vassert.h 51-56, 67). -/
def VASSERT_WARN {σ : Type} (b : Build) (loc : Site) (expr : CExpr σ) (p : Proc σ) : Proc σ :=
  if b.NDEBUG then p
  else
    let r := expr.eval p.mem
    if VUNLIKELY (!r.1) then
      { mem := r.2
        trace := p.trace ++
          [Event.log (vlog_warn expr.text none loc.file loc.line loc.func)] }
    else { mem := r.2, trace := p.trace }

/-- The macro `VASSERT_WARN_MSG(expr, msg)` (vassert.h 57-62, 68). -/
def VASSERT_WARN_MSG {σ : Type} (b : Build) (loc : Site) (expr : CExpr σ)
    (msg : Option CStr) (p : Proc σ) : Proc σ :=
  if b.NDEBUG then p
  else
    let r := expr.eval p.mem
    if VUNLIKELY (!r.1) then
      { mem := r.2
        trace := p.trace ++
          [Event.log (vlog_warn expr.text msg loc.file loc.line loc.func)] }
    else { mem := r.2, trace := p.trace }

/-! ## printf-style rendering -/

/-- The conversion `%d` of an `int`: decimal digits, with a minus sign for a
negative value. -/
def decimal : Int → CStr
  | Int.ofNat m => Nat.toDigits 10 m
  | Int.negSucc m => '-' :: Nat.toDigits 10 (m + 1)

/-- One conversion specification: the character after `%` and the arguments
left. `%s` takes a string, `%d` an int, `%%` is a percent sign. Any other
specification, or one whose argument is absent or of the other kind, is not
used by this header; it is copied as it stands. Returns the text produced and
the arguments that remain. -/
def convert (c : Char) (args : List Arg) : CStr × List Arg :=
  if c = 's' then
    match args with
    | Arg.str s :: rest => (s, rest)
    | _ => (['%', c], args)
  else if c = 'd' then
    match args with
    | Arg.int i :: rest => (decimal i, rest)
    | _ => (['%', c], args)
  else if c = '%' then (['%'], args)
  else (['%', c], args)

/-- The text a printf-style format renders to, with no length limit. The flag
says that the character just read was the `%` that opens a specification. -/
def cformatFrom : Bool → CStr → List Arg → CStr
  | false, [], _ => []
  | true, [], _ => ['%']
  | false, c :: rest, args =>
    if c = '%' then cformatFrom true rest args else c :: cformatFrom false rest args
  | true, c :: rest, args =>
    (convert c args).1 ++ cformatFrom false rest (convert c args).2

/-- The untruncated render of `format` with `args`. -/
def cformat (format : CStr) (args : List Arg) : CStr := cformatFrom false format args

/-- The description a log call renders to, before the sink adds the level tag
and applies the length cap. -/
def LogCall.render (c : LogCall) : CStr := cformat c.format c.args

/-! ## The log sink -/

/-- The macro `VLOG_MAX_MESSAGE_LEN` (vassert.h 114). -/
def VLOG_MAX_MESSAGE_LEN : Nat := 1024

/-- The number of values of `size_t` (64-bit). -/
def SIZE_MODULUS : Nat := 18446744073709551616

/-- Where a line goes: one of the two standard streams, or the Android log
with a priority and a tag. -/
inductive Dest where
  | stdout
  | stderr
  | android_log (prio : Int) (tag : CStr)
  deriving DecidableEq, Repr

/-- A line handed to a destination. -/
structure Emission where
  dest : Dest
  text : CStr
  deriving DecidableEq, Repr

/-- The tables `vlog_msgn` reads, which are not defined in `src/`:
`level_strings[level]`, `level_to_prio[level]` and `LOG_TAG`. -/
structure Tables where
  level_strings : VLOG_LEVEL → CStr
  level_to_prio : VLOG_LEVEL → Int
  LOG_TAG : CStr

/-- Stores `bytes` into the object `buf` from offset `off` on. A store that
would leave the object is an overrun: `none`. -/
def store (buf : List Char) (off : Nat) (bytes : List Char) : Option (List Char) :=
  if off + bytes.length ≤ buf.length then
    some (buf.take off ++ bytes ++ buf.drop (off + bytes.length))
  else none

/-- Reads the C string that starts at the beginning of `buf`. With no
terminator in the object the read leaves it: `none`. -/
def cstr (buf : List Char) : Option CStr :=
  if NUL ∈ buf then some (buf.takeWhile (fun c => c != NUL)) else none

/-- Modelled from the spec: `strblcpy(dst, src, size)` is called by `vlog_msgn`
but not defined in `src/`. The spec (4.2) has the level tag rendered into the
bounded buffer without overrun, followed by the message: a bounded copy that
stores at most `size - 1` characters of `src` and a terminator, and returns the
number of characters stored, the terminator apart. -/
def strblcpy (dst : List Char) (src : CStr) (size : Nat) : Option (List Char × Nat) :=
  if size = 0 then some (dst, 0)
  else
    let n := min src.length (size - 1)
    (store dst 0 (src.take n ++ [NUL])).map (fun d => (d, n))

/-- The call `vsnprintf(buf + off, n, format, args)` of the C library: stores at
most `n - 1` characters of the render and a terminator, nothing when `n` is 0. -/
def vsnprintf (buf : List Char) (off n : Nat) (format : CStr) (args : List Arg) :
    Option (List Char) :=
  if n = 0 then some buf
  else store buf off ((cformat format args).take (n - 1) ++ [NUL])

/-- The local array `char buffer[VLOG_MAX_MESSAGE_LEN]` before anything is
stored in it: `garbage i` is the byte that happens to be at index `i`. -/
def freshBuffer (garbage : Nat → Char) : List Char :=
  (List.range VLOG_MAX_MESSAGE_LEN).map garbage

/-- The function `vlog_msgn` (vassert.h 133-151). `sizeof(buffer)` is
`VLOG_MAX_MESSAGE_LEN`; `sizeof(buffer) - pos` is computed in `size_t`. -/
def vlog_msgn (b : Build) (t : Tables) (garbage : Nat → Char) (level : VLOG_LEVEL)
    (message : CStr) (args : List Arg) : Option Emission :=
  let is_error : Bool := decide (level.toNat < 2)
  let buffer := freshBuffer garbage
  match strblcpy buffer (t.level_strings level) VLOG_MAX_MESSAGE_LEN with
  | none => none
  | some (buffer1, pos) =>
    match vsnprintf buffer1 pos
        ((VLOG_MAX_MESSAGE_LEN + SIZE_MODULUS - pos) % SIZE_MODULUS) message args with
    | none => none
    | some buffer2 =>
      match cstr buffer2 with
      | none => none
      | some line =>
        if b.ANDROID then
          some { dest := Dest.android_log (t.level_to_prio level) t.LOG_TAG, text := line }
        else
          let outfile := if is_error then Dest.stderr else Dest.stdout
          some { dest := outfile, text := line ++ [LF] }

/-- The line the sink emits for a log call. -/
def LogCall.emit (b : Build) (t : Tables) (garbage : Nat → Char) (c : LogCall) :
    Option Emission :=
  vlog_msgn b t garbage c.level c.format c.args

/-! ## Sample inputs -/

/-- A debug build for a hosted platform. -/
def debugBuild : Build :=
  { NDEBUG := false, VABORT_DEBUG := false, MSC_VER := false, ANDROID := false }

/-- A release build for a hosted platform. -/
def releaseBuild : Build :=
  { NDEBUG := true, VABORT_DEBUG := false, MSC_VER := false, ANDROID := false }

/-- A debug build for Android. -/
def androidBuild : Build :=
  { NDEBUG := false, VABORT_DEBUG := false, MSC_VER := false, ANDROID := true }

/-- Sample tables: a bracketed tag per level. -/
def sampleTables : Tables :=
  { level_strings := fun l =>
      match l with
      | VLOG_LEVEL_FATAL => "[FATAL] ".toList
      | VLOG_LEVEL_ERROR => "[ERROR] ".toList
      | VLOG_LEVEL_WARN => "[WARN] ".toList
      | VLOG_LEVEL_INFO => "[INFO] ".toList
      | VLOG_LEVEL_DEBUG => "[DEBUG] ".toList
      | VLOG_LEVEL_TRACE => "[TRACE] ".toList
    level_to_prio := fun l => 7 - (l.toNat : Int)
    LOG_TAG := "vassert".toList }

/-- A call site. -/
def sampleSite : Site := { file := "main.c".toList, line := 42, func := "main".toList }

/-- The condition `1 == 2`: false, without effect on the memory. -/
def exprOneEqTwo : CExpr Nat :=
  { text := "1 == 2".toList, expanded := "1 == 2".toList, eval := fun m => (false, m) }

/-- The condition `ptr != null_value` where the pointer is null: false. -/
def exprPtrNonNull : CExpr Nat :=
  { text := "ptr != null_value".toList, expanded := "ptr != null_value".toList
    eval := fun m => (false, m) }

/-- The condition `ptr != NULL` where the pointer is null: false. `NULL` is
the macro of `<stdlib.h>`, which the header includes, defined as
`((void *)0)`. -/
def exprPtrNotNULL : CExpr Nat :=
  { text := "ptr != NULL".toList, expanded := "ptr != ((void *)0)".toList
    eval := fun m => (false, m) }

/-- A condition that counts its evaluations in the memory and is false. -/
def exprCounting : CExpr Nat :=
  { text := "n++ < 0".toList, expanded := "n++ < 0".toList, eval := fun m => (false, m + 1) }

/-- A condition that counts its evaluations in the memory and is true. -/
def exprCountingTrue : CExpr Nat :=
  { text := "++n > 0".toList, expanded := "++n > 0".toList, eval := fun m => (true, m + 1) }

/-- A process that has done nothing yet. -/
def startProc : Proc Nat := { mem := 0, trace := [] }

/-! ## Specification predicates -/

/-- What "no-op" means for a statement `s` run at `p` with a true condition
`expr`: the trace is as before (no log call, no halt), the statement that
follows runs, and the memory is touched by nothing but the evaluation of the
condition, so that with a condition free of side effects the process is
unchanged. -/
def IsNoOp {σ : Type} (expr : CExpr σ) (s : Proc σ → Proc σ) (p : Proc σ) : Prop :=
  (s p).trace = p.trace ∧
  logCalls (s p).trace = logCalls p.trace ∧
  (s p).halted = false ∧
  (∀ k : Proc σ → Proc σ, andThen s k p = k (s p)) ∧
  ((s p).mem = p.mem ∨ (s p).mem = (expr.eval p.mem).2) ∧
  ((expr.eval p.mem).2 = p.mem → s p = p)

/-- An argument is well formed when it is an int or a C string, which has no
terminator inside. -/
def Arg.WellFormed : Arg → Prop
  | Arg.str s => NUL ∉ s
  | Arg.int _ => True

/-- The location fields that open a failure description, as the formats of
`vlog_failure` and `vlog_warn` lay them out: `file:line: func: `. -/
def locationFields (file : CStr) (line : Int) (func : CStr) : CStr :=
  file ++ ":".toList ++ decimal line ++ ": ".toList ++ func ++ ": ".toList

/-- The part of a failure description that names the expression. -/
def assertionFailed (expression : CStr) : CStr :=
  "Assertion '".toList ++ expression ++ "' failed".toList

/-- The part of a failure description that carries the message. -/
def messageSuffix (message : CStr) : CStr :=
  ": '".toList ++ message ++ "'".toList

/-- The failure description after the location fields: the expression part,
followed by the message part when a message was supplied. -/
def failureText (expression : CStr) (message : Option CStr) : CStr :=
  match message with
  | none => assertionFailed expression
  | some m => assertionFailed expression ++ messageSuffix m

/-- What follows the buffer text in the emitted line: the line feed of
`fprintf(outfile, "%s\n", buffer)`, nothing on Android. -/
def lineEnd (b : Build) : CStr := if b.ANDROID then [] else [LF]

/-- Truncation "to exactly the cap length": the emitted text has
`VLOG_MAX_MESSAGE_LEN` characters and is an initial segment of the
untruncated render. -/
def TruncatedToCap (emitted untruncated : CStr) : Prop :=
  emitted.length = VLOG_MAX_MESSAGE_LEN ∧ emitted <+: untruncated

/-- A message of 2000 characters without conversion specifications. -/
def longMessage : CStr := List.replicate 2000 'a'

/-- A message of 1017 characters without conversion specifications: with the
seven characters of the sample INFO tag the render has exactly
`VLOG_MAX_MESSAGE_LEN` characters. -/
def boundaryMessage : CStr := List.replicate 1017 'c'

/-! ## Helper lemmas: traces -/

theorem logCalls_append (xs ys : List Event) :
    logCalls (xs ++ ys) = logCalls xs ++ logCalls ys := by
  induction xs with
  | nil => rfl
  | cons e es ih => cases e <;> simp [logCalls, ih]

theorem vlog_failure_level (e : CStr) (m : Option CStr) (f : CStr) (l : Int) (fn : CStr) :
    (vlog_failure e m f l fn).level = VLOG_LEVEL_FATAL := by
  cases m <;> rfl

theorem vlog_warn_level (e : CStr) (m : Option CStr) (f : CStr) (l : Int) (fn : CStr) :
    (vlog_warn e m f l fn).level = VLOG_LEVEL_WARN := by
  cases m <;> rfl

/-- A failing `VPANIC_MSG` in full: the condition is evaluated, one call to
`vlog_failure` is logged, then the process halts. -/
theorem VPANIC_MSG_of_false {σ : Type} (b : Build) (loc : Site) (expr : CExpr σ)
    (msg : Option CStr) (p : Proc σ) (hfalse : (expr.eval p.mem).1 = false) :
    VPANIC_MSG b loc expr msg p =
      { mem := (expr.eval p.mem).2
        trace := p.trace ++
          [Event.log (vlog_failure expr.text msg loc.file loc.line loc.func),
           Event.halt (VABORT_kind b)] } := by
  simp [VPANIC_MSG, VUNLIKELY, VABORT, hfalse]

theorem VPANIC_of_false {σ : Type} (b : Build) (loc : Site) (expr : CExpr σ)
    (p : Proc σ) (hfalse : (expr.eval p.mem).1 = false) :
    VPANIC b loc expr p =
      { mem := (expr.eval p.mem).2
        trace := p.trace ++
          [Event.log (vlog_failure expr.text none loc.file loc.line loc.func),
           Event.halt (VABORT_kind b)] } := by
  simp [VPANIC, VUNLIKELY, VABORT, hfalse]

theorem VPANIC_MSG_of_true {σ : Type} (b : Build) (loc : Site) (expr : CExpr σ)
    (msg : Option CStr) (p : Proc σ) (htrue : (expr.eval p.mem).1 = true) :
    VPANIC_MSG b loc expr msg p = { mem := (expr.eval p.mem).2, trace := p.trace } := by
  simp [VPANIC_MSG, VUNLIKELY, htrue]

theorem VPANIC_of_true {σ : Type} (b : Build) (loc : Site) (expr : CExpr σ)
    (p : Proc σ) (htrue : (expr.eval p.mem).1 = true) :
    VPANIC b loc expr p = { mem := (expr.eval p.mem).2, trace := p.trace } := by
  simp [VPANIC, VUNLIKELY, htrue]

theorem VASSERT_WARN_MSG_debug_of_false {σ : Type} (b : Build) (loc : Site)
    (expr : CExpr σ) (msg : Option CStr) (p : Proc σ) (hdebug : b.NDEBUG = false)
    (hfalse : (expr.eval p.mem).1 = false) :
    VASSERT_WARN_MSG b loc expr msg p =
      { mem := (expr.eval p.mem).2
        trace := p.trace ++
          [Event.log (vlog_warn expr.text msg loc.file loc.line loc.func)] } := by
  simp [VASSERT_WARN_MSG, VUNLIKELY, hdebug, hfalse]

theorem VASSERT_WARN_debug_of_false {σ : Type} (b : Build) (loc : Site)
    (expr : CExpr σ) (p : Proc σ) (hdebug : b.NDEBUG = false)
    (hfalse : (expr.eval p.mem).1 = false) :
    VASSERT_WARN b loc expr p =
      { mem := (expr.eval p.mem).2
        trace := p.trace ++
          [Event.log (vlog_warn expr.text none loc.file loc.line loc.func)] } := by
  simp [VASSERT_WARN, VUNLIKELY, hdebug, hfalse]

theorem isNoOp_of_trace_eq {σ : Type} (expr : CExpr σ) (s : Proc σ → Proc σ) (p : Proc σ)
    (hrun : p.halted = false) (htr : (s p).trace = p.trace)
    (hmem : (s p).mem = p.mem ∨ (s p).mem = (expr.eval p.mem).2)
    (hpure : (expr.eval p.mem).2 = p.mem → (s p).mem = p.mem) :
    IsNoOp expr s p := by
  have hh : (s p).halted = false := by
    simpa [Proc.halted, htr] using hrun
  refine ⟨htr, by rw [htr], hh, ?_, hmem, ?_⟩
  · intro k
    simp [andThen, hh]
  · intro h
    have h1 := hpure h
    cases hsp : s p with
    | mk m tr =>
      rw [hsp] at h1 htr
      cases p with
      | mk m0 tr0 =>
        simp only at h1 htr
        rw [h1, htr]

/-! ## Helper lemmas: the buffer of the sink -/

theorem freshBuffer_length (garbage : Nat → Char) :
    (freshBuffer garbage).length = VLOG_MAX_MESSAGE_LEN := by
  simp [freshBuffer]

theorem takeWhile_append_NUL (a rest : List Char) :
    (a ++ NUL :: rest).takeWhile (fun c => c != NUL) = a.takeWhile (fun c => c != NUL) := by
  induction a with
  | nil => simp [List.takeWhile]
  | cons x xs ih =>
    by_cases hx : x = NUL
    · simp [List.takeWhile, hx]
    · have hx2 : (x != NUL) = true := by simpa using hx
      simp only [List.cons_append, List.takeWhile_cons, hx2, ih, if_true]

theorem takeWhile_of_not_mem (a : List Char) (h : NUL ∉ a) :
    a.takeWhile (fun c => c != NUL) = a := by
  induction a with
  | nil => rfl
  | cons x xs ih =>
    have hx : x ≠ NUL := fun e => h (by simp [e])
    have hxs : NUL ∉ xs := fun e => h (by simp [e])
    have hx2 : (x != NUL) = true := by simpa using hx
    simp only [List.takeWhile, hx2, ih hxs]

theorem cstr_append_NUL (a rest : List Char) :
    cstr (a ++ NUL :: rest) = some (a.takeWhile (fun c => c != NUL)) := by
  have hmem : NUL ∈ a ++ NUL :: rest := by simp
  simp only [cstr, hmem, if_true, takeWhile_append_NUL]

theorem take_tag_append_take_render (tag render : List Char) (cap : Nat) :
    tag.take (min tag.length cap) ++ render.take (cap - min tag.length cap) =
      (tag ++ render).take cap := by
  rw [List.take_append_eq_append_take]
  rcases Nat.le_total tag.length cap with h | h
  · rw [Nat.min_eq_left h, List.take_length, List.take_of_length_le h]
  · rw [Nat.min_eq_right h]
    simp [Nat.sub_eq_zero_of_le h]

theorem strblcpy_freshBuffer (garbage : Nat → Char) (tag : CStr) :
    strblcpy (freshBuffer garbage) tag VLOG_MAX_MESSAGE_LEN =
      some (tag.take (min tag.length (VLOG_MAX_MESSAGE_LEN - 1)) ++
          NUL :: (freshBuffer garbage).drop (min tag.length (VLOG_MAX_MESSAGE_LEN - 1) + 1),
        min tag.length (VLOG_MAX_MESSAGE_LEN - 1)) := by
  have hlen := freshBuffer_length garbage
  have hle : min tag.length (VLOG_MAX_MESSAGE_LEN - 1) + 1 ≤ (freshBuffer garbage).length := by
    rw [hlen]; simp only [VLOG_MAX_MESSAGE_LEN]; omega
  have hpos : VLOG_MAX_MESSAGE_LEN ≠ 0 := by simp [VLOG_MAX_MESSAGE_LEN]
  simp only [strblcpy, hpos, if_false, store]
  have : (0 + (List.take (min tag.length (VLOG_MAX_MESSAGE_LEN - 1)) tag ++ [NUL]).length
      ≤ (freshBuffer garbage).length) := by
    simp only [List.length_append, List.length_take, List.length_singleton]
    omega
  rw [if_pos this]
  have hmin : min (min tag.length (VLOG_MAX_MESSAGE_LEN - 1)) tag.length =
      min tag.length (VLOG_MAX_MESSAGE_LEN - 1) := by omega
  simp only [Option.map_some', List.take_zero, List.nil_append, Nat.zero_add,
    List.length_append, List.length_take, List.length_singleton, List.append_assoc,
    List.singleton_append, hmin]

theorem size_minus_pos (n : Nat) (hn : n ≤ VLOG_MAX_MESSAGE_LEN - 1) :
    (VLOG_MAX_MESSAGE_LEN + SIZE_MODULUS - n) % SIZE_MODULUS = VLOG_MAX_MESSAGE_LEN - n := by
  simp only [VLOG_MAX_MESSAGE_LEN, SIZE_MODULUS] at *
  omega

theorem vsnprintf_after_tag (A R : List Char) (format : CStr) (args : List Arg)
    (hA : A.length ≤ VLOG_MAX_MESSAGE_LEN - 1)
    (hlen : (A ++ NUL :: R).length = VLOG_MAX_MESSAGE_LEN) :
    ∃ rest, vsnprintf (A ++ NUL :: R) A.length
        ((VLOG_MAX_MESSAGE_LEN + SIZE_MODULUS - A.length) % SIZE_MODULUS) format args =
      some ((A ++ (cformat format args).take (VLOG_MAX_MESSAGE_LEN - 1 - A.length)) ++
        NUL :: rest) := by
  rw [size_minus_pos A.length hA]
  have hne : VLOG_MAX_MESSAGE_LEN - A.length ≠ 0 := by
    simp only [VLOG_MAX_MESSAGE_LEN] at *; omega
  have hsub : VLOG_MAX_MESSAGE_LEN - A.length - 1 = VLOG_MAX_MESSAGE_LEN - 1 - A.length := by
    omega
  simp only [vsnprintf, hne, if_false, store, hsub]
  have hfit : A.length +
      (List.take (VLOG_MAX_MESSAGE_LEN - 1 - A.length) (cformat format args) ++ [NUL]).length
        ≤ (A ++ NUL :: R).length := by
    rw [hlen]
    simp only [List.length_append, List.length_take, List.length_singleton,
      VLOG_MAX_MESSAGE_LEN] at *
    omega
  rw [if_pos hfit]
  refine ⟨List.drop (A.length +
      (List.take (VLOG_MAX_MESSAGE_LEN - 1 - A.length) (cformat format args) ++
        [NUL]).length) (A ++ NUL :: R), ?_⟩
  simp [List.take_append_eq_append_take]

/-- The text `vlog_msgn` leaves in its buffer: the tag followed by the render,
cut to the `VLOG_MAX_MESSAGE_LEN - 1` characters that fit before the
terminator, read as a C string. -/
theorem vlog_msgn_eq (b : Build) (t : Tables) (garbage : Nat → Char) (level : VLOG_LEVEL)
    (message : CStr) (args : List Arg) :
    vlog_msgn b t garbage level message args =
      some (if b.ANDROID then
          { dest := Dest.android_log (t.level_to_prio level) t.LOG_TAG
            text := ((t.level_strings level ++ cformat message args).take
              (VLOG_MAX_MESSAGE_LEN - 1)).takeWhile (fun c => c != NUL) }
        else
          { dest := if level.toNat < 2 then Dest.stderr else Dest.stdout
            text := ((t.level_strings level ++ cformat message args).take
              (VLOG_MAX_MESSAGE_LEN - 1)).takeWhile (fun c => c != NUL) ++ [LF] }) := by
  have hmin : min (t.level_strings level).length (VLOG_MAX_MESSAGE_LEN - 1) =
      ((t.level_strings level).take
        (min (t.level_strings level).length (VLOG_MAX_MESSAGE_LEN - 1))).length := by
    simp only [List.length_take]; omega
  have hA : ((t.level_strings level).take
      (min (t.level_strings level).length (VLOG_MAX_MESSAGE_LEN - 1))).length ≤
        VLOG_MAX_MESSAGE_LEN - 1 := by
    rw [← hmin]; omega
  have hlen : ((t.level_strings level).take
      (min (t.level_strings level).length (VLOG_MAX_MESSAGE_LEN - 1)) ++
        NUL :: (freshBuffer garbage).drop
          (min (t.level_strings level).length (VLOG_MAX_MESSAGE_LEN - 1) + 1)).length =
      VLOG_MAX_MESSAGE_LEN := by
    simp only [List.length_append, List.length_cons, List.length_drop, freshBuffer_length,
      ← hmin]
    simp only [VLOG_MAX_MESSAGE_LEN]
    omega
  obtain ⟨rest, hrest⟩ := vsnprintf_after_tag _ _ message args hA hlen
  rw [← hmin] at hrest
  simp only [vlog_msgn, strblcpy_freshBuffer, hrest, cstr_append_NUL,
    take_tag_append_take_render]
  cases b.ANDROID <;> simp

/-! ## Helper lemmas: rendering -/

theorem digitChar_ne_NUL : ∀ k < 10, Nat.digitChar k ≠ NUL := by
  decide

theorem toDigitsCore_no_NUL (fuel n : Nat) (ds : List Char) (h : NUL ∉ ds) :
    NUL ∉ Nat.toDigitsCore 10 fuel n ds := by
  induction fuel generalizing n ds with
  | zero => simpa [Nat.toDigitsCore] using h
  | succ f ih =>
    have hd : NUL ∉ Nat.digitChar (n % 10) :: ds := by
      intro hmem
      rcases List.mem_cons.mp hmem with e | e
      · exact digitChar_ne_NUL _ (Nat.mod_lt n (by decide)) e.symm
      · exact h e
    simp only [Nat.toDigitsCore]
    split_ifs
    · exact hd
    · exact ih _ _ hd

theorem decimal_no_NUL (i : Int) : NUL ∉ decimal i := by
  cases i with
  | ofNat m => exact toDigitsCore_no_NUL _ _ _ (by simp)
  | negSucc m =>
    intro hmem
    rcases List.mem_cons.mp hmem with e | e
    · exact absurd e (by decide)
    · exact toDigitsCore_no_NUL _ _ _ (by simp) e

theorem convert_no_NUL (c : Char) (args : List Arg) (hc : c ≠ NUL)
    (hargs : ∀ a ∈ args, a.WellFormed) :
    NUL ∉ (convert c args).1 ∧ ∀ a ∈ (convert c args).2, a.WellFormed := by
  have hlit : NUL ∉ ['%', c] := by
    intro hmem
    rcases List.mem_cons.mp hmem with e | e
    · exact absurd e (by decide)
    · exact hc (List.mem_singleton.mp e).symm
  unfold convert
  split_ifs with h1 h2 h3
  · cases args with
    | nil => exact ⟨hlit, hargs⟩
    | cons a rest =>
      cases a with
      | str s =>
        exact ⟨hargs (Arg.str s) (by simp), fun x hx => hargs x (by simp [hx])⟩
      | int i => exact ⟨hlit, hargs⟩
  · cases args with
    | nil => exact ⟨hlit, hargs⟩
    | cons a rest =>
      cases a with
      | str s => exact ⟨hlit, hargs⟩
      | int i => exact ⟨decimal_no_NUL i, fun x hx => hargs x (by simp [hx])⟩
  · refine ⟨?_, hargs⟩
    intro hmem
    exact absurd (List.mem_singleton.mp hmem) (by decide)
  · exact ⟨hlit, hargs⟩

theorem cformatFrom_no_NUL (format : CStr) (flag : Bool) (args : List Arg)
    (hfmt : NUL ∉ format) (hargs : ∀ a ∈ args, a.WellFormed) :
    NUL ∉ cformatFrom flag format args := by
  induction format generalizing flag args with
  | nil =>
    cases flag
    · simp [cformatFrom]
    · simp only [cformatFrom]
      intro hmem
      exact absurd (List.mem_singleton.mp hmem) (by decide)
  | cons c rest ih =>
    have hc : c ≠ NUL := fun e => hfmt (by simp [e])
    have hrest : NUL ∉ rest := fun e => hfmt (by simp [e])
    cases flag
    · simp only [cformatFrom]
      split_ifs
      · exact ih true args hrest hargs
      · intro hmem
        rcases List.mem_cons.mp hmem with e | e
        · exact hc e.symm
        · exact ih false args hrest hargs e
    · simp only [cformatFrom]
      have hconv := convert_no_NUL c args hc hargs
      intro hmem
      rcases List.mem_append.mp hmem with e | e
      · exact hconv.1 e
      · exact ih false _ hrest hconv.2 e

theorem cformat_no_NUL (format : CStr) (args : List Arg)
    (hfmt : NUL ∉ format) (hargs : ∀ a ∈ args, a.WellFormed) :
    NUL ∉ cformat format args :=
  cformatFrom_no_NUL format false args hfmt hargs

theorem cformat_FMT_NOMSG (file : CStr) (line : Int) (func expression : CStr) :
    cformat FMT_NOMSG [Arg.str file, Arg.int line, Arg.str func, Arg.str expression] =
      locationFields file line func ++ assertionFailed expression := by
  have hfmt : FMT_NOMSG = '%' :: 's' :: ":".toList ++ '%' :: 'd' :: ": ".toList ++
      '%' :: 's' :: ": Assertion '".toList ++ '%' :: 's' :: "' failed".toList := by decide
  rw [hfmt]
  simp [cformat, cformatFrom, convert, locationFields, assertionFailed]

theorem cformat_FMT_MSG (file : CStr) (line : Int) (func expression message : CStr) :
    cformat FMT_MSG
        [Arg.str file, Arg.int line, Arg.str func, Arg.str expression, Arg.str message] =
      locationFields file line func ++ assertionFailed expression ++
        messageSuffix message := by
  have hfmt : FMT_MSG = '%' :: 's' :: ":".toList ++ '%' :: 'd' :: ": ".toList ++
      '%' :: 's' :: ": Assertion '".toList ++ '%' :: 's' :: "' failed: '".toList ++
      '%' :: 's' :: "'".toList := by decide
  rw [hfmt]
  simp [cformat, cformatFrom, convert, locationFields, assertionFailed, messageSuffix]

theorem render_vlog_failure (expression : CStr) (message : Option CStr) (file : CStr)
    (line : Int) (func : CStr) :
    (vlog_failure expression message file line func).render =
      locationFields file line func ++ failureText expression message := by
  cases message with
  | none => simp [vlog_failure, log_msgn, LogCall.render, cformat_FMT_NOMSG, failureText]
  | some m => simp [vlog_failure, log_msgn, LogCall.render, cformat_FMT_MSG, failureText]

theorem render_vlog_warn (expression : CStr) (message : Option CStr) (file : CStr)
    (line : Int) (func : CStr) :
    (vlog_warn expression message file line func).render =
      locationFields file line func ++ failureText expression message := by
  cases message with
  | none => simp [vlog_warn, log_msgn, LogCall.render, cformat_FMT_NOMSG, failureText]
  | some m => simp [vlog_warn, log_msgn, LogCall.render, cformat_FMT_MSG, failureText]

/-- When tag and render are C strings that fit before the terminator, the
emitted line is the tag, the render and the line end. -/
theorem vlog_msgn_of_fits (b : Build) (t : Tables) (garbage : Nat → Char)
    (level : VLOG_LEVEL) (message : CStr) (args : List Arg)
    (htag : NUL ∉ t.level_strings level) (hfmt : NUL ∉ message)
    (hargs : ∀ a ∈ args, a.WellFormed)
    (hfit : (t.level_strings level ++ cformat message args).length < VLOG_MAX_MESSAGE_LEN) :
    vlog_msgn b t garbage level message args =
      some { dest := if b.ANDROID then Dest.android_log (t.level_to_prio level) t.LOG_TAG
                     else if level.toNat < 2 then Dest.stderr else Dest.stdout
             text := t.level_strings level ++ cformat message args ++ lineEnd b } := by
  have hnul : NUL ∉ t.level_strings level ++ cformat message args := by
    intro hmem
    rcases List.mem_append.mp hmem with e | e
    · exact htag e
    · exact cformat_no_NUL message args hfmt hargs e
  have htake : (t.level_strings level ++ cformat message args).take
      (VLOG_MAX_MESSAGE_LEN - 1) = t.level_strings level ++ cformat message args :=
    List.take_of_length_le (by omega)
  rw [vlog_msgn_eq, htake, takeWhile_of_not_mem _ hnul]
  cases hb : b.ANDROID <;> simp [lineEnd, hb]

theorem FMT_NOMSG_no_NUL : NUL ∉ FMT_NOMSG := by decide

theorem FMT_MSG_no_NUL : NUL ∉ FMT_MSG := by decide

theorem failure_args_wellFormed (expression : CStr) (message : Option CStr) (file : CStr)
    (line : Int) (func : CStr) (hexpr : NUL ∉ expression) (hfile : NUL ∉ file)
    (hfunc : NUL ∉ func) (hmsg : ∀ m, message = some m → NUL ∉ m) :
    NUL ∉ (vlog_failure expression message file line func).format ∧
    ∀ a ∈ (vlog_failure expression message file line func).args, a.WellFormed := by
  cases message with
  | none =>
    refine ⟨FMT_NOMSG_no_NUL, ?_⟩
    intro a ha
    simp only [vlog_failure, log_msgn, List.mem_cons, List.mem_singleton, List.mem_nil_iff,
      or_false] at ha
    rcases ha with e | e | e | e <;> subst e <;> simp [Arg.WellFormed, *]
  | some m =>
    have hm := hmsg m rfl
    refine ⟨FMT_MSG_no_NUL, ?_⟩
    intro a ha
    simp only [vlog_failure, log_msgn, List.mem_cons, List.mem_singleton, List.mem_nil_iff,
      or_false] at ha
    rcases ha with e | e | e | e | e <;> subst e <;> simp [Arg.WellFormed, *]

theorem vlog_warn_same_call (expression : CStr) (message : Option CStr) (file : CStr)
    (line : Int) (func : CStr) :
    (vlog_warn expression message file line func).format =
      (vlog_failure expression message file line func).format ∧
    (vlog_warn expression message file line func).args =
      (vlog_failure expression message file line func).args := by
  cases message <;> simp [vlog_warn, vlog_failure, log_msgn]

theorem infix_of_append_right (a c : List Char) : c <:+: a ++ c :=
  ⟨a, [], by simp⟩

/-- The line emitted for a failure call that fits contains the failure text. -/
theorem emit_contains_failureText (b : Build) (t : Tables) (garbage : Nat → Char)
    (c : LogCall) (loc text : CStr) (hrender : c.render = loc ++ text)
    (htag : NUL ∉ t.level_strings c.level) (hfmt : NUL ∉ c.format)
    (hargs : ∀ a ∈ c.args, a.WellFormed)
    (hfit : (t.level_strings c.level ++ c.render).length < VLOG_MAX_MESSAGE_LEN) :
    ∃ em, c.emit b t garbage = some em ∧ text <:+: em.text := by
  have h := vlog_msgn_of_fits b t garbage c.level c.format c.args htag hfmt hargs hfit
  refine ⟨_, h, ?_⟩
  show text <:+: t.level_strings c.level ++ cformat c.format c.args ++ lineEnd b
  have hr : cformat c.format c.args = loc ++ text := hrender
  rw [hr]
  exact ⟨t.level_strings c.level ++ loc, lineEnd b, by simp⟩

/-! ## The assertion engine -/

/-- C1: whenever the condition evaluates to false, in every build (debug or
release, whatever `NDEBUG` is), `VPANIC` and `VPANIC_MSG` add to the trace
exactly one log call, of level FATAL, followed by the halt of `VABORT`; the
process is halted and a statement placed after the macro does not run. -/
theorem C1_panic_logs_one_fatal_line_then_halts {σ : Type} (b : Build) (loc : Site)
    (expr : CExpr σ) (msg : Option CStr) (p : Proc σ)
    (hfalse : (expr.eval p.mem).1 = false) :
    ((VPANIC b loc expr p).trace = p.trace ++
        [Event.log (vlog_failure expr.text none loc.file loc.line loc.func),
         Event.halt (VABORT_kind b)] ∧
      logCalls (VPANIC b loc expr p).trace = logCalls p.trace ++
        [vlog_failure expr.text none loc.file loc.line loc.func] ∧
      (vlog_failure expr.text none loc.file loc.line loc.func).level = VLOG_LEVEL_FATAL ∧
      (VPANIC b loc expr p).halted = true ∧
      ∀ k : Proc σ → Proc σ, andThen (VPANIC b loc expr) k p = VPANIC b loc expr p) ∧
    ((VPANIC_MSG b loc expr msg p).trace = p.trace ++
        [Event.log (vlog_failure expr.text msg loc.file loc.line loc.func),
         Event.halt (VABORT_kind b)] ∧
      logCalls (VPANIC_MSG b loc expr msg p).trace = logCalls p.trace ++
        [vlog_failure expr.text msg loc.file loc.line loc.func] ∧
      (vlog_failure expr.text msg loc.file loc.line loc.func).level = VLOG_LEVEL_FATAL ∧
      (VPANIC_MSG b loc expr msg p).halted = true ∧
      ∀ k : Proc σ → Proc σ,
        andThen (VPANIC_MSG b loc expr msg) k p = VPANIC_MSG b loc expr msg p) := by
  have h1 := VPANIC_of_false b loc expr p hfalse
  have h2 := VPANIC_MSG_of_false b loc expr msg p hfalse
  have hh1 : (VPANIC b loc expr p).halted = true := by
    rw [h1]; simp [Proc.halted, Event.isHalt]
  have hh2 : (VPANIC_MSG b loc expr msg p).halted = true := by
    rw [h2]; simp [Proc.halted, Event.isHalt]
  refine ⟨⟨by rw [h1], ?_, vlog_failure_level _ _ _ _ _, hh1, ?_⟩,
    ⟨by rw [h2], ?_, vlog_failure_level _ _ _ _ _, hh2, ?_⟩⟩
  · rw [h1]; simp [logCalls_append, logCalls]
  · intro k; simp [andThen, hh1]
  · rw [h2]; simp [logCalls_append, logCalls]
  · intro k; simp [andThen, hh2]

/-- C1 at a concrete input: `VPANIC(1 == 2)` in a release build. -/
theorem C1_panic_witness :
    (exprOneEqTwo.eval startProc.mem).1 = false ∧
    (VPANIC releaseBuild sampleSite exprOneEqTwo startProc).trace = startProc.trace ++
      [Event.log (vlog_failure exprOneEqTwo.text none sampleSite.file sampleSite.line
         sampleSite.func),
       Event.halt (VABORT_kind releaseBuild)] :=
  ⟨rfl, (C1_panic_logs_one_fatal_line_then_halts releaseBuild sampleSite exprOneEqTwo
    none startProc rfl).1.1⟩

/-- C2: whenever the condition evaluates to true, each of the six macros is a
no-op in every build: the trace is unchanged (no log call, no halt), the
process is not halted, the statement after the macro runs, and the memory is
changed by nothing but the evaluation of the condition. -/
theorem C2_true_condition_is_noop {σ : Type} (b : Build) (loc : Site) (expr : CExpr σ)
    (msg : Option CStr) (p : Proc σ) (hrun : p.halted = false)
    (htrue : (expr.eval p.mem).1 = true) :
    IsNoOp expr (VPANIC b loc expr) p ∧
    IsNoOp expr (VPANIC_MSG b loc expr msg) p ∧
    IsNoOp expr (VASSERT b loc expr) p ∧
    IsNoOp expr (VASSERT_MSG b loc expr msg) p ∧
    IsNoOp expr (VASSERT_WARN b loc expr) p ∧
    IsNoOp expr (VASSERT_WARN_MSG b loc expr msg) p := by
  have h1 := VPANIC_of_true b loc expr p htrue
  have h2 := VPANIC_MSG_of_true b loc expr msg p htrue
  have h3 := VPANIC_of_true b loc expr.forwarded p htrue
  have h4 := VPANIC_MSG_of_true b loc expr.forwarded msg p htrue
  simp only [CExpr.forwarded] at h3 h4
  refine ⟨?_, ?_, ?_, ?_, ?_, ?_⟩
  · apply isNoOp_of_trace_eq expr _ p hrun <;> simp [h1]
  · apply isNoOp_of_trace_eq expr _ p hrun <;> simp [h2]
  · cases hb : b.NDEBUG <;>
      apply isNoOp_of_trace_eq expr _ p hrun <;> simp [VASSERT, CExpr.forwarded, hb, h3]
  · cases hb : b.NDEBUG <;>
      apply isNoOp_of_trace_eq expr _ p hrun <;>
        simp [VASSERT_MSG, CExpr.forwarded, hb, h4]
  · cases hb : b.NDEBUG <;>
      apply isNoOp_of_trace_eq expr _ p hrun <;>
        simp [VASSERT_WARN, VUNLIKELY, hb, htrue]
  · cases hb : b.NDEBUG <;>
      apply isNoOp_of_trace_eq expr _ p hrun <;>
        simp [VASSERT_WARN_MSG, VUNLIKELY, hb, htrue]

/-- C2 at a concrete input: a true condition with a side effect, debug build;
the trace stays empty and the statement after `VASSERT` runs. -/
theorem C2_noop_witness :
    startProc.halted = false ∧ (exprCountingTrue.eval startProc.mem).1 = true ∧
    IsNoOp exprCountingTrue (VASSERT debugBuild sampleSite exprCountingTrue) startProc :=
  ⟨rfl, rfl, (C2_true_condition_is_noop debugBuild sampleSite exprCountingTrue none
    startProc rfl rfl).2.2.1⟩

/-- What `VASSERT` and `VASSERT_MSG` do on a false condition: in a debug
build they are `VPANIC` and `VPANIC_MSG` applied to the macro-replaced
argument, so one FATAL call naming the expanded text is logged and the process
halts, and that happens if and only if `NDEBUG` is undefined; in a release
build they leave the process as it is for any condition whatever, which is
therefore not evaluated. -/
theorem VASSERT_of_false {σ : Type} (b : Build) (loc : Site) (expr : CExpr σ)
    (msg : Option CStr) (p : Proc σ) (hfalse : (expr.eval p.mem).1 = false) :
    ((VASSERT b loc expr p).trace = p.trace ++
        [Event.log (vlog_failure expr.expanded none loc.file loc.line loc.func),
         Event.halt (VABORT_kind b)] ↔ b.NDEBUG = false) ∧
    ((VASSERT_MSG b loc expr msg p).trace = p.trace ++
        [Event.log (vlog_failure expr.expanded msg loc.file loc.line loc.func),
         Event.halt (VABORT_kind b)] ↔ b.NDEBUG = false) ∧
    (b.NDEBUG = false →
      (∀ (e : CExpr σ) (m : Option CStr) (q : Proc σ),
        VASSERT b loc e q = VPANIC b loc e.forwarded q ∧
        VASSERT_MSG b loc e m q = VPANIC_MSG b loc e.forwarded m q)) ∧
    (b.NDEBUG = true →
      (∀ (e : CExpr σ) (m : Option CStr) (q : Proc σ),
        VASSERT b loc e q = q ∧ VASSERT_MSG b loc e m q = q) ∧
      (p.halted = false → ∀ k : Proc σ → Proc σ,
        andThen (VASSERT b loc expr) k p = k p ∧
        andThen (VASSERT_MSG b loc expr msg) k p = k p)) := by
  have h1 := VPANIC_of_false b loc expr.forwarded p hfalse
  have h2 := VPANIC_MSG_of_false b loc expr.forwarded msg p hfalse
  simp only [CExpr.forwarded] at h1 h2
  refine ⟨?_, ?_, ?_, ?_⟩
  · cases hb : b.NDEBUG <;> simp [VASSERT, CExpr.forwarded, hb, h1]
  · cases hb : b.NDEBUG <;> simp [VASSERT_MSG, CExpr.forwarded, hb, h2]
  · intro hb e m q
    simp [VASSERT, VASSERT_MSG, hb]
  · intro hb
    refine ⟨?_, ?_⟩
    · intro e m q; simp [VASSERT, VASSERT_MSG, hb]
    · intro hrun k
      simp [andThen, VASSERT, VASSERT_MSG, hb, hrun]

/-- C3 at the failing input `VASSERT(ptr != NULL)` with a null pointer in a
debug build: `VPANIC(ptr != NULL)` logs the expression as written,
`Assertion 'ptr != NULL' failed`, while `VASSERT(ptr != NULL)` logs the
macro-replaced argument, `Assertion 'ptr != ((void *)0)' failed`; so the two do
not behave alike, and the same holds of `VASSERT_MSG` against `VPANIC_MSG`.
Both log one FATAL call and halt. In a release build `VASSERT` on a false
condition with a side effect leaves the process untouched. -/
theorem C3_assert_logs_expanded_text :
    (exprPtrNotNULL.eval startProc.mem).1 = false ∧
    (VPANIC debugBuild sampleSite exprPtrNotNULL startProc).trace =
      [Event.log (vlog_failure "ptr != NULL".toList none "main.c".toList 42 "main".toList),
       Event.halt Halt.abort] ∧
    (VASSERT debugBuild sampleSite exprPtrNotNULL startProc).trace =
      [Event.log (vlog_failure "ptr != ((void *)0)".toList none "main.c".toList 42
         "main".toList),
       Event.halt Halt.abort] ∧
    (vlog_failure "ptr != NULL".toList none "main.c".toList 42 "main".toList).render =
      "main.c:42: main: Assertion 'ptr != NULL' failed".toList ∧
    (vlog_failure "ptr != ((void *)0)".toList none "main.c".toList 42 "main".toList).render =
      "main.c:42: main: Assertion 'ptr != ((void *)0)' failed".toList ∧
    (VASSERT debugBuild sampleSite exprPtrNotNULL startProc).trace ≠
      (VPANIC debugBuild sampleSite exprPtrNotNULL startProc).trace ∧
    (VASSERT_MSG debugBuild sampleSite exprPtrNotNULL (some "unexpected null".toList)
        startProc).trace ≠
      (VPANIC_MSG debugBuild sampleSite exprPtrNotNULL (some "unexpected null".toList)
        startProc).trace ∧
    (exprCounting.eval startProc.mem).1 = false ∧
    VASSERT releaseBuild sampleSite exprCounting startProc = startProc := by
  refine ⟨rfl, by decide, by decide, by decide, by decide, by decide!, by decide!, rfl, rfl⟩

/-- C4: whenever the condition evaluates to false, `VASSERT_WARN` and
`VASSERT_WARN_MSG` in a debug build add exactly one log call, of level WARN,
and no halt: the process is as halted as before and the statement after the
macro runs; in a release build they leave the process as it is for any
condition, which is therefore not evaluated. -/
theorem C4_assert_warn_logs_one_warn_line {σ : Type} (b : Build) (loc : Site)
    (expr : CExpr σ) (msg : Option CStr) (p : Proc σ)
    (hfalse : (expr.eval p.mem).1 = false) :
    (b.NDEBUG = false →
      (VASSERT_WARN b loc expr p).trace = p.trace ++
        [Event.log (vlog_warn expr.text none loc.file loc.line loc.func)] ∧
      (VASSERT_WARN_MSG b loc expr msg p).trace = p.trace ++
        [Event.log (vlog_warn expr.text msg loc.file loc.line loc.func)] ∧
      (vlog_warn expr.text none loc.file loc.line loc.func).level = VLOG_LEVEL_WARN ∧
      (vlog_warn expr.text msg loc.file loc.line loc.func).level = VLOG_LEVEL_WARN ∧
      (VASSERT_WARN b loc expr p).halted = p.halted ∧
      (VASSERT_WARN_MSG b loc expr msg p).halted = p.halted ∧
      (p.halted = false → ∀ k : Proc σ → Proc σ,
        andThen (VASSERT_WARN b loc expr) k p = k (VASSERT_WARN b loc expr p) ∧
        andThen (VASSERT_WARN_MSG b loc expr msg) k p =
          k (VASSERT_WARN_MSG b loc expr msg p))) ∧
    (b.NDEBUG = true →
      ∀ (e : CExpr σ) (m : Option CStr) (q : Proc σ),
        VASSERT_WARN b loc e q = q ∧ VASSERT_WARN_MSG b loc e m q = q) := by
  constructor
  · intro hb
    have h1 := VASSERT_WARN_debug_of_false b loc expr p hb hfalse
    have h2 := VASSERT_WARN_MSG_debug_of_false b loc expr msg p hb hfalse
    have hh1 : (VASSERT_WARN b loc expr p).halted = p.halted := by
      rw [h1]; simp [Proc.halted, Event.isHalt]
    have hh2 : (VASSERT_WARN_MSG b loc expr msg p).halted = p.halted := by
      rw [h2]; simp [Proc.halted, Event.isHalt]
    refine ⟨by rw [h1], by rw [h2], vlog_warn_level _ _ _ _ _, vlog_warn_level _ _ _ _ _,
      hh1, hh2, ?_⟩
    intro hrun k
    simp [andThen, hh1, hh2, hrun]
  · intro hb e m q
    simp [VASSERT_WARN, VASSERT_WARN_MSG, hb]

/-- C4 at a concrete input: `VASSERT_WARN_MSG(ptr != null_value, "unexpected
null")` with a null pointer in a debug build logs one WARN call. -/
theorem C4_assert_warn_witness :
    (exprPtrNonNull.eval startProc.mem).1 = false ∧
    (VASSERT_WARN_MSG debugBuild sampleSite exprPtrNonNull
        (some "unexpected null".toList) startProc).trace = startProc.trace ++
      [Event.log (vlog_warn exprPtrNonNull.text (some "unexpected null".toList)
        sampleSite.file sampleSite.line sampleSite.func)] :=
  ⟨rfl, ((C4_assert_warn_logs_one_warn_line debugBuild sampleSite exprPtrNonNull
    (some "unexpected null".toList) startProc rfl).1 rfl).2.1⟩

/-- C10: for every expression text, message (present or `NULL`), file, line
and function, `vlog_warn` and `vlog_failure` pass the sink the same format
string and the same arguments, hence the same rendered text; they differ in
the level alone (WARN against FATAL), and both choose the format on whether
the message is `NULL`. -/
theorem C10_warn_and_failure_same_text (expression : CStr) (message : Option CStr)
    (file : CStr) (line : Int) (func : CStr) :
    vlog_warn expression message file line func =
      { vlog_failure expression message file line func with level := VLOG_LEVEL_WARN } ∧
    (vlog_warn expression message file line func).format =
      (vlog_failure expression message file line func).format ∧
    (vlog_warn expression message file line func).args =
      (vlog_failure expression message file line func).args ∧
    (vlog_warn expression message file line func).render =
      (vlog_failure expression message file line func).render ∧
    (vlog_warn expression message file line func).level = VLOG_LEVEL_WARN ∧
    (vlog_failure expression message file line func).level = VLOG_LEVEL_FATAL ∧
    (vlog_failure expression message file line func).format =
      (if message = none then FMT_NOMSG else FMT_MSG) ∧
    (vlog_warn expression message file line func).format =
      (if message = none then FMT_NOMSG else FMT_MSG) := by
  cases message <;> simp [vlog_warn, vlog_failure, log_msgn, LogCall.render]

/-! ## The failure description -/

/-- C5 as amended: for every expression text E and message M, the description
rendered by `vlog_failure` and `vlog_warn` is, after the location fields,
`Assertion 'E' failed` when no message was supplied and
`Assertion 'E' failed: 'M'` when one was: the expression and the message each
stand in single quotes. The render contains that text, and so does the line the
sink emits when tag and render are C strings that fit the buffer. -/
theorem C5_description_quotes_expression_and_message (b : Build) (t : Tables)
    (garbage : Nat → Char) (expression : CStr) (message : Option CStr) (file : CStr)
    (line : Int) (func : CStr) :
    failureText expression none = "Assertion '".toList ++ expression ++ "' failed".toList ∧
    (∀ m, failureText expression (some m) =
      "Assertion '".toList ++ expression ++ "' failed: '".toList ++ m ++ "'".toList) ∧
    (vlog_failure expression message file line func).render =
      locationFields file line func ++ failureText expression message ∧
    (vlog_warn expression message file line func).render =
      locationFields file line func ++ failureText expression message ∧
    failureText expression message <:+:
      (vlog_failure expression message file line func).render ∧
    failureText expression message <:+:
      (vlog_warn expression message file line func).render ∧
    (NUL ∉ expression → NUL ∉ file → NUL ∉ func → (∀ m, message = some m → NUL ∉ m) →
      (NUL ∉ t.level_strings VLOG_LEVEL_FATAL →
        (t.level_strings VLOG_LEVEL_FATAL ++
          (vlog_failure expression message file line func).render).length <
            VLOG_MAX_MESSAGE_LEN →
        ∃ em, (vlog_failure expression message file line func).emit b t garbage = some em ∧
          failureText expression message <:+: em.text) ∧
      (NUL ∉ t.level_strings VLOG_LEVEL_WARN →
        (t.level_strings VLOG_LEVEL_WARN ++
          (vlog_warn expression message file line func).render).length <
            VLOG_MAX_MESSAGE_LEN →
        ∃ em, (vlog_warn expression message file line func).emit b t garbage = some em ∧
          failureText expression message <:+: em.text)) := by
  have hf := render_vlog_failure expression message file line func
  have hw := render_vlog_warn expression message file line func
  refine ⟨?_, ?_, hf, hw, ?_, ?_, ?_⟩
  · simp [failureText, assertionFailed]
  · intro m
    have hsplit : "' failed: '".toList = "' failed".toList ++ ": '".toList := by decide
    simp [failureText, assertionFailed, messageSuffix, hsplit]
  · rw [hf]; exact infix_of_append_right _ _
  · rw [hw]; exact infix_of_append_right _ _
  · intro hexpr hfile hfunc hmsg
    have hwf := failure_args_wellFormed expression message file line func hexpr hfile
      hfunc hmsg
    have hsame := vlog_warn_same_call expression message file line func
    constructor
    · intro htag hfit
      exact emit_contains_failureText b t garbage _ _ _ hf
        (by rw [vlog_failure_level]; exact htag) hwf.1 hwf.2
        (by rw [vlog_failure_level]; exact hfit)
    · intro htag hfit
      exact emit_contains_failureText b t garbage _ _ _ hw
        (by rw [vlog_warn_level]; exact htag) (by rw [hsame.1]; exact hwf.1)
        (by rw [hsame.2]; exact hwf.2) (by rw [vlog_warn_level]; exact hfit)

/-- C5 as amended, at a concrete input: the line emitted for
`VASSERT_WARN_MSG(ptr != null_value, "unexpected null")` contains
`Assertion 'ptr != null_value' failed: 'unexpected null'`. -/
theorem C5_description_witness :
    NUL ∉ exprPtrNonNull.text ∧ NUL ∉ sampleSite.file ∧ NUL ∉ sampleSite.func ∧
    NUL ∉ sampleTables.level_strings VLOG_LEVEL_WARN ∧
    ∃ em, (vlog_warn exprPtrNonNull.text (some "unexpected null".toList) sampleSite.file
        sampleSite.line sampleSite.func).emit debugBuild sampleTables (fun _ => 'x') =
          some em ∧
      failureText exprPtrNonNull.text (some "unexpected null".toList) <:+: em.text :=
  ⟨by decide, by decide, by decide, by decide,
    ((C5_description_quotes_expression_and_message debugBuild sampleTables (fun _ => 'x')
      exprPtrNonNull.text (some "unexpected null".toList) sampleSite.file sampleSite.line
      sampleSite.func).2.2.2.2.2.2 (by decide) (by decide) (by decide)
      (by intro m hm; cases hm; decide)).2 (by decide) (by decide!)⟩

/-- C5 as stated fails: for `VPANIC(1 == 2)` the description is
`main.c:42: main: Assertion '1 == 2' failed`; neither it nor the emitted line
contains `1 == 2 failed`, the quote stands in between. Likewise the
description of `VASSERT_WARN_MSG(ptr != null_value, "unexpected null")` does
not contain `ptr != null_value failed: unexpected null`. -/
theorem C5_unquoted_text_counterexample :
    logCalls (VPANIC debugBuild sampleSite exprOneEqTwo startProc).trace =
      [vlog_failure "1 == 2".toList none "main.c".toList 42 "main".toList] ∧
    (vlog_failure "1 == 2".toList none "main.c".toList 42 "main".toList).render =
      "main.c:42: main: Assertion '1 == 2' failed".toList ∧
    ¬ ("1 == 2 failed".toList <:+:
      (vlog_failure "1 == 2".toList none "main.c".toList 42 "main".toList).render) ∧
    (vlog_failure "1 == 2".toList none "main.c".toList 42 "main".toList).emit debugBuild
        sampleTables (fun _ => 'x') =
      some { dest := Dest.stderr
             text := "[FATAL] main.c:42: main: Assertion '1 == 2' failed".toList ++ [LF] } ∧
    ¬ ("1 == 2 failed".toList <:+:
      "[FATAL] main.c:42: main: Assertion '1 == 2' failed".toList ++ [LF]) ∧
    ¬ ("ptr != null_value failed: unexpected null".toList <:+:
      (vlog_warn "ptr != null_value".toList (some "unexpected null".toList)
        "main.c".toList 42 "main".toList).render) := by
  refine ⟨by decide, by decide, by decide!, by decide!, by decide!, by decide!⟩

/-- C8: for every failed assertion, with or without a message, the description
rendered by `vlog_failure` and by `vlog_warn` begins with the file name, a
colon, the line number in decimal, a colon and a space, the function name, a
colon and a space, in that order; the part that names the expression follows. -/
theorem C8_description_begins_with_location (expression : CStr) (message : Option CStr)
    (file : CStr) (line : Int) (func : CStr) :
    (vlog_failure expression message file line func).render =
      file ++ ":".toList ++ decimal line ++ ": ".toList ++ func ++ ": ".toList ++
        failureText expression message ∧
    (vlog_warn expression message file line func).render =
      file ++ ":".toList ++ decimal line ++ ": ".toList ++ func ++ ": ".toList ++
        failureText expression message ∧
    (file ++ ":".toList ++ decimal line ++ ": ".toList ++ func ++ ": ".toList) <+:
      (vlog_failure expression message file line func).render ∧
    (file ++ ":".toList ++ decimal line ++ ": ".toList ++ func ++ ": ".toList) <+:
      (vlog_warn expression message file line func).render ∧
    (assertionFailed expression <+: failureText expression message) ∧
    decimal 42 = "42".toList := by
  have hf := render_vlog_failure expression message file line func
  have hw := render_vlog_warn expression message file line func
  refine ⟨hf, hw, ⟨failureText expression message, hf.symm⟩,
    ⟨failureText expression message, hw.symm⟩, ?_, by decide⟩
  cases message with
  | none => exact ⟨[], by simp [failureText]⟩
  | some m => exact ⟨messageSuffix m, rfl⟩

/-! ## The log sink -/

/-- C6: for every level, `vlog_msgn` compiled for the standard streams
(`__ANDROID__` undefined) writes to stderr if and only if the level is FATAL or
ERROR, and to stdout for WARN, INFO, DEBUG and TRACE; compiled for Android it
hands every line to the platform log with the priority `level_to_prio[level]`.
In either build the destination is the same whatever the format string, its
arguments and the initial contents of the buffer are. -/
theorem C6_destination_by_level (b : Build) (t : Tables) (garbage : Nat → Char)
    (level : VLOG_LEVEL) (message : CStr) (args : List Arg) :
    (b.ANDROID = false →
      (vlog_msgn b t garbage level message args).map Emission.dest =
        some (match level with
          | VLOG_LEVEL_FATAL => Dest.stderr
          | VLOG_LEVEL_ERROR => Dest.stderr
          | VLOG_LEVEL_WARN => Dest.stdout
          | VLOG_LEVEL_INFO => Dest.stdout
          | VLOG_LEVEL_DEBUG => Dest.stdout
          | VLOG_LEVEL_TRACE => Dest.stdout) ∧
      ((vlog_msgn b t garbage level message args).map Emission.dest = some Dest.stderr ↔
        level = VLOG_LEVEL_FATAL ∨ level = VLOG_LEVEL_ERROR) ∧
      ((vlog_msgn b t garbage level message args).map Emission.dest = some Dest.stdout ↔
        level = VLOG_LEVEL_WARN ∨ level = VLOG_LEVEL_INFO ∨ level = VLOG_LEVEL_DEBUG ∨
          level = VLOG_LEVEL_TRACE)) ∧
    (b.ANDROID = true →
      (vlog_msgn b t garbage level message args).map Emission.dest =
        some (Dest.android_log (t.level_to_prio level) t.LOG_TAG)) ∧
    ∀ (garbage2 : Nat → Char) (message2 : CStr) (args2 : List Arg),
      (vlog_msgn b t garbage2 level message2 args2).map Emission.dest =
        (vlog_msgn b t garbage level message args).map Emission.dest := by
  have hdest : ∀ (g : Nat → Char) (m : CStr) (a : List Arg),
      (vlog_msgn b t g level m a).map Emission.dest =
        some (if b.ANDROID then Dest.android_log (t.level_to_prio level) t.LOG_TAG
          else if level.toNat < 2 then Dest.stderr else Dest.stdout) := by
    intro g m a
    rw [vlog_msgn_eq]
    cases b.ANDROID <;> simp
  refine ⟨?_, ?_, ?_⟩
  · intro hstream
    rw [hdest, hstream]
    cases level <;> simp [VLOG_LEVEL.toNat]
  · intro handroid
    rw [hdest, handroid]
    simp
  · intro g2 m2 a2
    rw [hdest, hdest]

/-- C6 at a concrete input: an ERROR line goes to stderr. -/
theorem C6_destination_witness :
    debugBuild.ANDROID = false ∧
    (vlog_msgn debugBuild sampleTables (fun _ => 'x') VLOG_LEVEL_ERROR "%d items".toList
      [Arg.int 3]).map Emission.dest = some Dest.stderr :=
  ⟨rfl, ((C6_destination_by_level debugBuild sampleTables (fun _ => 'x') VLOG_LEVEL_ERROR
    "%d items".toList [Arg.int 3]).1 rfl).1⟩

/-- C7 as amended: for every level and every message whose render, tag
included, is longer than `VLOG_MAX_MESSAGE_LEN` = 1024, `vlog_msgn` emits the
first `VLOG_MAX_MESSAGE_LEN - 1` = 1023 characters of the untruncated render
(the last byte of the buffer holds the terminator), followed by the line feed
on the standard streams; that text is an initial segment of the untruncated
render. No store leaves the buffer: the function yields a line on every input. -/
theorem C7_truncates_to_cap_minus_one (b : Build) (t : Tables) (garbage : Nat → Char)
    (level : VLOG_LEVEL) (message : CStr) (args : List Arg)
    (htag : NUL ∉ t.level_strings level) (hfmt : NUL ∉ message)
    (hargs : ∀ a ∈ args, a.WellFormed)
    (hlong : VLOG_MAX_MESSAGE_LEN < (t.level_strings level ++ cformat message args).length) :
    vlog_msgn b t garbage level message args =
      some { dest := if b.ANDROID then Dest.android_log (t.level_to_prio level) t.LOG_TAG
                     else if level.toNat < 2 then Dest.stderr else Dest.stdout
             text := (t.level_strings level ++ cformat message args).take
               (VLOG_MAX_MESSAGE_LEN - 1) ++ lineEnd b } ∧
    ((t.level_strings level ++ cformat message args).take
      (VLOG_MAX_MESSAGE_LEN - 1)).length = 1023 ∧
    (t.level_strings level ++ cformat message args).take (VLOG_MAX_MESSAGE_LEN - 1) <+:
      t.level_strings level ++ cformat message args ∧
    ∀ (b2 : Build) (t2 : Tables) (garbage2 : Nat → Char) (level2 : VLOG_LEVEL)
      (message2 : CStr) (args2 : List Arg),
      (vlog_msgn b2 t2 garbage2 level2 message2 args2).isSome = true := by
  have hnul : NUL ∉ (t.level_strings level ++ cformat message args).take
      (VLOG_MAX_MESSAGE_LEN - 1) := by
    intro hmem
    rcases List.mem_append.mp (List.mem_of_mem_take hmem) with e | e
    · exact htag e
    · exact cformat_no_NUL message args hfmt hargs e
  refine ⟨?_, ?_, List.take_prefix _ _, ?_⟩
  · rw [vlog_msgn_eq, takeWhile_of_not_mem _ hnul]
    cases hb : b.ANDROID <;> simp [lineEnd, hb]
  · rw [List.length_take]
    simp only [VLOG_MAX_MESSAGE_LEN] at hlong ⊢
    omega
  · intro b2 t2 g2 l2 m2 a2
    rw [vlog_msgn_eq]
    rfl

/-- C7 as amended, at a concrete input: a FATAL line with a message of 2000
characters. -/
theorem C7_truncation_witness :
    NUL ∉ sampleTables.level_strings VLOG_LEVEL_FATAL ∧ NUL ∉ longMessage ∧
    VLOG_MAX_MESSAGE_LEN <
      (sampleTables.level_strings VLOG_LEVEL_FATAL ++ cformat longMessage []).length ∧
    ((sampleTables.level_strings VLOG_LEVEL_FATAL ++ cformat longMessage []).take
      (VLOG_MAX_MESSAGE_LEN - 1)).length = 1023 :=
  ⟨by decide, by decide!, by decide!,
    (C7_truncates_to_cap_minus_one debugBuild sampleTables (fun _ => 'x') VLOG_LEVEL_FATAL
      longMessage [] (by decide) (by decide!) (by intro a ha; cases ha) (by decide!)).2.1⟩

/-- C7 as stated fails: for the FATAL tag and a message of 2000 characters the
render has 2008 characters; the buffer text that is emitted has 1023
characters, not 1024. On the standard streams the line has 1024 characters with
its line feed, and then it is not an initial segment of the untruncated render;
on Android the line is the 1023 characters alone. -/
theorem C7_exact_cap_counterexample :
    VLOG_MAX_MESSAGE_LEN <
      (sampleTables.level_strings VLOG_LEVEL_FATAL ++ cformat longMessage []).length ∧
    vlog_msgn debugBuild sampleTables (fun _ => 'x') VLOG_LEVEL_FATAL longMessage [] =
      some { dest := Dest.stderr
             text := ("[FATAL] ".toList ++ List.replicate 2000 'a').take 1023 ++ [LF] } ∧
    vlog_msgn androidBuild sampleTables (fun _ => 'x') VLOG_LEVEL_FATAL longMessage [] =
      some { dest := Dest.android_log 7 "vassert".toList
             text := ("[FATAL] ".toList ++ List.replicate 2000 'a').take 1023 } ∧
    ¬ TruncatedToCap (("[FATAL] ".toList ++ List.replicate 2000 'a').take 1023)
      (sampleTables.level_strings VLOG_LEVEL_FATAL ++ cformat longMessage []) ∧
    ¬ TruncatedToCap (("[FATAL] ".toList ++ List.replicate 2000 'a').take 1023 ++ [LF])
      (sampleTables.level_strings VLOG_LEVEL_FATAL ++ cformat longMessage []) := by
  refine ⟨by decide!, by decide!, by decide!, ?_, ?_⟩
  · intro h
    exact absurd h.1 (by decide!)
  · intro h
    exact absurd h.2 (by decide!)

/-- C9 as amended: for every level and every message that fits the buffer
with its terminator (tag and render are C strings and together shorter than
`VLOG_MAX_MESSAGE_LEN`, that is at most 1023 characters), `vlog_msgn` emits one
line: the tag of the level, immediately followed by the formatted message,
followed by the line end. The tag is an initial segment of the line and the
formatted message with the line end is what remains. In general the line is
the first 1023 characters of tag and message and the line end, so with 1024
characters or more it is not the tag followed by the whole message. -/
theorem C9_line_is_tag_then_message (b : Build) (t : Tables) (garbage : Nat → Char)
    (level : VLOG_LEVEL) (message : CStr) (args : List Arg)
    (htag : NUL ∉ t.level_strings level) (hfmt : NUL ∉ message)
    (hargs : ∀ a ∈ args, a.WellFormed) :
    ∃ em, vlog_msgn b t garbage level message args = some em ∧
      em.text = (t.level_strings level ++ cformat message args).take
        (VLOG_MAX_MESSAGE_LEN - 1) ++ lineEnd b ∧
      ((t.level_strings level ++ cformat message args).length < VLOG_MAX_MESSAGE_LEN →
        em.text = t.level_strings level ++ cformat message args ++ lineEnd b ∧
        t.level_strings level <+: em.text ∧
        em.text.drop (t.level_strings level).length = cformat message args ++ lineEnd b) ∧
      (VLOG_MAX_MESSAGE_LEN ≤ (t.level_strings level ++ cformat message args).length →
        em.text ≠ t.level_strings level ++ cformat message args ++ lineEnd b) := by
  have hnul : NUL ∉ (t.level_strings level ++ cformat message args).take
      (VLOG_MAX_MESSAGE_LEN - 1) := by
    intro hmem
    rcases List.mem_append.mp (List.mem_of_mem_take hmem) with e | e
    · exact htag e
    · exact cformat_no_NUL message args hfmt hargs e
  have heq : vlog_msgn b t garbage level message args =
      some { dest := if b.ANDROID then Dest.android_log (t.level_to_prio level) t.LOG_TAG
                     else if level.toNat < 2 then Dest.stderr else Dest.stdout
             text := (t.level_strings level ++ cformat message args).take
               (VLOG_MAX_MESSAGE_LEN - 1) ++ lineEnd b } := by
    rw [vlog_msgn_eq, takeWhile_of_not_mem _ hnul]
    cases hb : b.ANDROID <;> simp [lineEnd, hb]
  refine ⟨_, heq, rfl, ?_, ?_⟩
  · intro hfit
    have htake : (t.level_strings level ++ cformat message args).take
        (VLOG_MAX_MESSAGE_LEN - 1) = t.level_strings level ++ cformat message args :=
      List.take_of_length_le (by omega)
    rw [htake]
    exact ⟨rfl, ⟨cformat message args ++ lineEnd b, by simp⟩, by simp⟩
  · intro hlong heq2
    have hlen := congrArg List.length heq2
    simp only [List.length_append, List.length_take, VLOG_MAX_MESSAGE_LEN] at hlen hlong
    omega

/-- C9 as amended, at a concrete input:
`vlog_msgn(VLOG_LEVEL_INFO, "%d items", 3)`. -/
theorem C9_line_witness :
    NUL ∉ sampleTables.level_strings VLOG_LEVEL_INFO ∧ NUL ∉ "%d items".toList ∧
    (sampleTables.level_strings VLOG_LEVEL_INFO ++ cformat "%d items".toList
      [Arg.int 3]).length < VLOG_MAX_MESSAGE_LEN ∧
    ∃ em, vlog_msgn debugBuild sampleTables (fun _ => 'x') VLOG_LEVEL_INFO
        "%d items".toList [Arg.int 3] = some em ∧
      em.text = "[INFO] 3 items".toList ++ [LF] :=
  ⟨by decide, by decide, by decide,
    (C9_line_is_tag_then_message debugBuild sampleTables (fun _ => 'x') VLOG_LEVEL_INFO
      "%d items".toList [Arg.int 3] (by decide) (by decide)
      (by intro a ha; simp at ha; subst ha; trivial)).imp
      (fun _ h => ⟨h.1, (h.2.2.1 (by decide)).1.trans (by decide)⟩)⟩

/-- C9 as stated fails: the INFO tag and a message of 1017 characters make
1024 characters, which do not exceed the cap of 1024; yet the buffer keeps
1023 of them and the terminator, so the emitted line is not the tag followed
by the formatted message: what remains after the tag is the message without
its last character, on the standard streams and on Android alike. -/
theorem C9_full_cap_counterexample :
    NUL ∉ sampleTables.level_strings VLOG_LEVEL_INFO ∧ NUL ∉ boundaryMessage ∧
    (sampleTables.level_strings VLOG_LEVEL_INFO ++ cformat boundaryMessage []).length =
      VLOG_MAX_MESSAGE_LEN ∧
    vlog_msgn debugBuild sampleTables (fun _ => 'x') VLOG_LEVEL_INFO boundaryMessage [] =
      some { dest := Dest.stdout
             text := "[INFO] ".toList ++ List.replicate 1016 'c' ++ [LF] } ∧
    vlog_msgn androidBuild sampleTables (fun _ => 'x') VLOG_LEVEL_INFO boundaryMessage [] =
      some { dest := Dest.android_log 4 "vassert".toList
             text := "[INFO] ".toList ++ List.replicate 1016 'c' } ∧
    "[INFO] ".toList ++ List.replicate 1016 'c' ++ [LF] ≠
      sampleTables.level_strings VLOG_LEVEL_INFO ++ cformat boundaryMessage [] ++ [LF] ∧
    "[INFO] ".toList ++ List.replicate 1016 'c' ≠
      sampleTables.level_strings VLOG_LEVEL_INFO ++ cformat boundaryMessage [] ∧
    ("[INFO] ".toList ++ List.replicate 1016 'c' ++ [LF]).drop
        (sampleTables.level_strings VLOG_LEVEL_INFO).length ≠
      cformat boundaryMessage [] ++ [LF] := by
  refine ⟨by decide, by decide!, by decide!, by decide!, by decide!, by decide!,
    by decide!, by decide!⟩


end VAssert
